import Mathlib

/-!
Verification of the token-gated HTTP API (two variants: a Keycloak-backed
Express app, `api-parcial-auth0/Api.js`, and an Auth0-backed Express app).
The repository's own logic — extracting the bearer token, the role predicate
`requiereRol`, the error-mapping middleware and the 404 fall-through — is
translated directly from the JavaScript source.  The JWT verification
internals live in external libraries (`jsonwebtoken`,
`express-oauth2-jwt-bearer`) that are not part of the repository; those
steps are modelled from the specification, parameterised by exactly the
options the source passes at each call site.
-/

namespace Parcial2

/-! ### JavaScript string primitives

The JavaScript string operations the source uses (`split`, `startsWith`,
`endsWith`, `toLowerCase`) are translated as structurally recursive
functions over the character list of a `String`, so that every definition
in this file evaluates on concrete inputs. -/

/-- Helper of `jsSplit`: walk the characters, cutting at each separator. -/
def splitCharAux (sep : Char) : List Char → List Char → List (List Char)
  | [], acc => [acc.reverse]
  | c :: cs, acc =>
    if c = sep then acc.reverse :: splitCharAux sep cs []
    else splitCharAux sep cs (c :: acc)

/-- JavaScript `s.split(sep)` for a one-character separator: `""` splits to
`[""]`, and a trailing separator yields a trailing empty field. -/
def jsSplit (s : String) (sep : Char) : List String :=
  (splitCharAux sep s.data []).map (fun l => ⟨l⟩)

/-- JavaScript `s.startsWith(pre)`. -/
def jsStartsWith (s pre : String) : Bool := pre.data.isPrefixOf s.data

/-- JavaScript `s.endsWith(suf)`. -/
def jsEndsWith (s suf : String) : Bool := suf.data.isSuffixOf s.data

/-- JavaScript `s.toLowerCase()` (ASCII, which covers every route path). -/
def jsToLower (s : String) : String := ⟨s.data.map Char.toLower⟩

/-- Entry of the `resource_access` claim for one client/application
namespace: a JSON object that may or may not carry a `roles` array.
`roles := none` models an entry without a `roles` property
(`resourceAccess[ns]?.roles` is `undefined`). -/
structure NsEntry where
  roles : Option (List String)
deriving Repr, DecidableEq

/-- Decoded JWT payload, with the fields the two apps read.  `aud` is the
audience list (a JSON string audience is the singleton list), `exp` and
`nbf` are Unix-second timestamps, `scope` is the space-delimited scope
claim, `resource_access` maps client namespaces to their granted roles
(`none` models a token without the claim). -/
structure Claims where
  iss : Option String
  aud : List String
  exp : Int
  nbf : Option Int
  scope : Option String
  preferred_username : Option String
  resource_access : Option (List (String × NsEntry))
deriving Repr, DecidableEq

/-- A structurally well-formed JWT as seen after base64 decoding: the header
declares a signing algorithm and a key id, and `sigValid` abstracts whether
the RS256 signature verifies against the signing key the JWKS endpoint
serves for `kid`. -/
structure Jwt where
  alg : String
  kid : String
  sigValid : Bool
  payload : Claims
deriving Repr, DecidableEq

/-- A raw bearer-token string either fails JWT decoding altogether or decodes
to a `Jwt`. -/
inductive TokenString where
  | malformed : TokenString
  | wellFormed : Jwt → TokenString
deriving Repr, DecidableEq

/-! ## Keycloak variant: `src/api-parcial-auth0/Api.js` -/

/-- `const KEYCLOAK_URL = 'http://localhost:8080'` (Api.js line 13). -/
def KEYCLOAK_URL : String := "http://localhost:8080"

/-- `const REALM = 'parcial-oauth'` (Api.js line 14). -/
def REALM : String := "parcial-oauth"

/-- The issuer the app passes to `jwt.verify` (Api.js line 48). -/
def keycloakIssuer : String := KEYCLOAK_URL ++ "/realms/" ++ REALM

/-- The options object handed to `jwt.verify`: allowed algorithms, and the
optional issuer/audience checks (`jsonwebtoken` runs a standard check only
when the corresponding option is supplied). -/
structure VerifyOpts where
  algorithms : List String
  issuer : Option String
  audience : Option String
deriving Repr, DecidableEq

/-- The options literal of Api.js lines 46-49: `algorithms: ['RS256']`,
`issuer` set to the Keycloak realm, and no `audience` key. -/
def apiVerifyOpts : VerifyOpts :=
  { algorithms := ["RS256"], issuer := some keycloakIssuer, audience := none }

/-- Result of a JWT verification: an error (with the library's message) or
the decoded payload. -/
inductive VerifyOut where
  | err (message : String)
  | ok (decoded : Claims)
deriving Repr, DecidableEq

/-- The `nbf` claim is violated when it is present and still in the future. -/
def nbfViolated (c : Claims) (now : Int) : Bool :=
  match c.nbf with
  | some n => now < n
  | none => false

/-- The audience option is violated when it is configured and the payload's
audience list does not contain it. -/
def audViolated (opts : VerifyOpts) (c : Claims) : Bool :=
  match opts.audience with
  | some a => !(c.aud.contains a)
  | none => false

/-- The issuer option is violated when it is configured and the payload's
`iss` differs from it. -/
def issViolated (opts : VerifyOpts) (c : Claims) : Bool :=
  match opts.issuer with
  | some i => c.iss ≠ some i
  | none => false

/-- Modelled from the spec: `jwt.verify` of the `jsonwebtoken` library (not
part of this repository; Api.js only calls it).  Per the spec's Token
Verifier contract it rejects an unsupported algorithm immediately — before
any key fetch — then resolves the signing key, verifies the signature, and
runs each standard claim check that the supplied options enable (`exp`
always, `nbf` when present, `aud`/`iss` only when configured).  `decode` is
the ambient JWT parsing of raw token strings; the second component of the
result records whether the JWKS signing-key fetch (`getKey`) was invoked. -/
def jwtVerify (opts : VerifyOpts) (decode : String → TokenString) (now : Int)
    (tok : String) : VerifyOut × Bool :=
  if tok = "" then (.err "jwt must be provided", false)
  else match decode tok with
  | .malformed => (.err "jwt malformed", false)
  | .wellFormed t =>
    if !(opts.algorithms.contains t.alg) then (.err "invalid algorithm", false)
    else if !t.sigValid then (.err "invalid signature", true)
    else if nbfViolated t.payload now then (.err "jwt not active", true)
    else if t.payload.exp ≤ now then (.err "jwt expired", true)
    else if audViolated opts t.payload then (.err "jwt audience invalid", true)
    else if issViolated opts t.payload then (.err "jwt issuer invalid", true)
    else (.ok t.payload, true)

/-- Outcome of the `verificarToken` middleware: either it answers the request
itself (`res.status(s).json({ error: e, ... })`) or it attaches the decoded
payload as `req.user` and calls `next()`. -/
inductive VTOut where
  | respond (status : Nat) (error : String)
  | next (user : Claims)
deriving Repr, DecidableEq

/-- `verificarToken` (Api.js lines 34-60): reject with 401 `'Token no
proporcionado'` when the `Authorization` header is absent or does not start
with `'Bearer '`; otherwise verify `authHeader.split(' ')[1]` with
`jwt.verify` under `apiVerifyOpts`.  A verification error yields 403
`'Token inválido o expirado'`; success sets `req.user` and calls `next()`.
The boolean records whether a signing-key fetch happened. -/
def verificarToken (decode : String → TokenString) (now : Int)
    (authHeader : Option String) : VTOut × Bool :=
  match authHeader with
  | none => (.respond 401 "Token no proporcionado", false)
  | some h =>
    if !(jsStartsWith h "Bearer ") then (.respond 401 "Token no proporcionado", false)
    else
      match jwtVerify apiVerifyOpts decode now ((jsSplit h ' ').getD 1 "") with
      | (.err _, kf) => (.respond 403 "Token inválido o expirado", kf)
      | (.ok decoded, kf) => (.next decoded, kf)

/-- Roles of one namespace of the `resource_access` object:
`resourceAccess[ns]?.roles || []` (Api.js lines 68-69). -/
def nsRoles (ra : List (String × NsEntry)) (ns : String) : List String :=
  match ra.lookup ns with
  | some e => e.roles.getD []
  | none => []

/-- Outcome of the `requiereRol(...)` middleware: deny with a status and the
JSON body fields `error`, `rolesRequeridos`, `rolesActuales`, or call
`next()` with `req.user` as the handler will see it. -/
inductive RoleOut where
  | deny (status : Nat) (error : String)
      (rolesRequeridos rolesActuales : List String)
  | next (user : Claims)
deriving Repr, DecidableEq

/-- `requiereRol(...rolesRequeridos)` (Api.js lines 63-84): read
`req.user.resource_access || {}`, take the roles of the
`'microserviciocliente'` and `'frontendapp'` entries, concatenate them, and
admit when some required role is included; otherwise answer 403 with both
lists. -/
def requiereRol (rolesRequeridos : List String) (user : Claims) : RoleOut :=
  let resourceAccess := user.resource_access.getD []
  let microRoles := nsRoles resourceAccess "microserviciocliente"
  let frontendRoles := nsRoles resourceAccess "frontendapp"
  let todosLosRoles := microRoles ++ frontendRoles
  let tienePermiso := rolesRequeridos.any (fun rol => todosLosRoles.contains rol)
  if !tienePermiso then
    .deny 403 "Permisos insuficientes" rolesRequeridos todosLosRoles
  else
    .next user

/-- The admit/deny bit of a `RoleOut`. -/
def RoleOut.allowed : RoleOut → Bool
  | .deny _ _ _ _ => false
  | .next _ => true

/-! ## Auth0 variant: the unnamed source file (Express app using
`express-oauth2-jwt-bearer`) -/

/-- `const AUTH0_DOMAIN = 'dev-uilvef2fvivglwd5.us.auth0.com'` (line 27). -/
def AUTH0_DOMAIN : String := "dev-uilvef2fvivglwd5.us.auth0.com"

/-- `const AUTH0_AUDIENCE = 'https://api-parcial.com'` (line 28). -/
def AUTH0_AUDIENCE : String := "https://api-parcial.com"

/-- The `issuerBaseURL` handed to `auth` (line 35). -/
def auth0Issuer : String := "https://" ++ AUTH0_DOMAIN ++ "/"

/-- Modelled from the spec: the `auth()` middleware of
`express-oauth2-jwt-bearer` (library code, not in the repository), as
configured by `checkJwt` (lines 33-37): single allowed algorithm RS256,
issuer `auth0Issuer`, audience `AUTH0_AUDIENCE`.  Per the spec's Token
Verifier contract the algorithm gate comes first, before the key fetch;
then signature, issuer, audience (`aud` must contain the configured
audience), expiry and `nbf` are checked.  The second component records
whether the signing key was fetched. -/
def authVerify (now : Int) (t : Jwt) : VerifyOut × Bool :=
  if t.alg ≠ "RS256" then (.err "signing algorithm not allowed", false)
  else if !t.sigValid then (.err "signature verification failed", true)
  else if t.payload.iss ≠ some auth0Issuer then (.err "unexpected iss claim value", true)
  else if !(t.payload.aud.contains AUTH0_AUDIENCE) then (.err "unexpected aud claim value", true)
  else if t.payload.exp ≤ now then (.err "exp claim check failed", true)
  else if nbfViolated t.payload now then (.err "nbf claim check failed", true)
  else (.ok t.payload, true)

/-- A JavaScript error object as the error middleware inspects it: its
constructor name, message, optional machine code, and — for
insufficient-scope failures — the expected and actual scope lists. -/
structure JsError where
  name : String
  message : String
  code : Option String := none
  expected : Option (List String) := none
  actual : Option (List String) := none
deriving Repr, DecidableEq

/-- Modelled from the spec: `requiredScopes(...)` of
`express-oauth2-jwt-bearer` (library code, not in the repository; the
routes only call it).  Per the spec's Scope strategy it splits the
payload's space-delimited `scope` claim into tokens and admits when the
requirement's set intersects it (at-least-one-of); on deny it raises an
`InsufficientScopeError` carrying both the required and the actual set.
`none` means the middleware called `next()`. -/
def requiredScopes (required : List String) (payload : Claims) : Option JsError :=
  let tokens := jsSplit (payload.scope.getD "") ' '
  if required.any (fun s => tokens.contains s) then none
  else some { name := "InsufficientScopeError", message := "Insufficient Scope",
              code := some "insufficient_scope",
              expected := some required, actual := some tokens }

/-- A JSON error response of the Auth0 variant's error middleware: HTTP
status plus the body fields the source writes (absent fields are `none`). -/
structure ErrResponse where
  status : Nat
  error : String
  mensaje : Option String := none
  detalles : Option String := none
  codigo : Option String := none
  scopes_requeridos : Option (List String) := none
  scopes_actuales : Option (List String) := none
deriving Repr, DecidableEq

/-- The error-handling middleware of the Auth0 variant (lines 218-243):
`UnauthorizedError` → 401 with the failure message and code;
`InsufficientScopeError` → 403 with `err.expected` and `err.actual`;
anything else → 500 with a generic error field. -/
def errorMiddleware (e : JsError) : ErrResponse :=
  if e.name = "UnauthorizedError" then
    { status := 401, error := "Token no proporcionado o inválido",
      mensaje := some e.message,
      detalles := some "Debe incluir header: Authorization: Bearer <tu_token>",
      codigo := e.code }
  else if e.name = "InsufficientScopeError" then
    { status := 403, error := "Permisos insuficientes",
      mensaje := some "El token no tiene los scopes necesarios",
      scopes_requeridos := e.expected, scopes_actuales := e.actual }
  else
    { status := 500, error := "Error interno del servidor",
      mensaje := some e.message }

/-- The fixed-path routes the Auth0 variant registers (method, path):
lines 44, 59, 79, 125, 152, 171 and 189 of the source. -/
def auth0Routes : List (String × String) :=
  [("GET", "/health"),
   ("GET", "/api/servicios/productos"),
   ("POST", "/api/servicios/productos"),
   ("GET", "/api/usuarios/perfil"),
   ("PUT", "/api/usuarios/perfil"),
   ("GET", "/api/usuarios/historial"),
   ("GET", "/api/token-info")]

/-- Express's default route matching is case-insensitive and tolerates one
trailing slash; normalise a request path accordingly before the table
lookup. -/
def normalizePath (p : String) : String :=
  let q := jsToLower p
  if (q != "/") && jsEndsWith q "/" then ⟨q.data.dropLast⟩ else q

/-- Whether a (method, path) pair matches some registered route of the Auth0
variant: a fixed-path entry of `auth0Routes`, or the parameterised route
`PUT /api/servicios/productos/:id` (line 100) whose `:id` is one non-empty
path segment. -/
def matchedRoute (m p : String) : Bool :=
  let q := normalizePath p
  auth0Routes.contains (m, q) ||
    ((m == "PUT") && jsStartsWith q "/api/servicios/productos/" &&
      (let rest := q.data.drop ("/api/servicios/productos/").data.length
       !rest.isEmpty && !(rest.contains '/')))

/-- Body of the catch-all 404 handler. -/
structure NotFoundResponse where
  status : Nat
  error : String
  ruta_solicitada : String
  metodo : String
deriving Repr, DecidableEq

/-- The Auth0 app's routing fall-through: a request matching no registered
route reaches the final middleware (lines 246-252), which answers 404 with
a JSON body echoing `req.path` and `req.method`; a matched request is
handled by its route (`none` here). -/
def appDispatch (m p : String) : Option NotFoundResponse :=
  if matchedRoute m p then none
  else some { status := 404, error := "Endpoint no encontrado",
              ruta_solicitada := p, metodo := m }

/-! ## Derived definitions used by the statements -/

/-- The list `todosLosRoles` of `requiereRol` (Api.js line 70): the union —
as list concatenation — of the roles granted under the two consulted
namespaces. -/
def todosLosRoles (user : Claims) : List String :=
  nsRoles (user.resource_access.getD []) "microserviciocliente" ++
    nsRoles (user.resource_access.getD []) "frontendapp"

/-- A header of the form `Authorization: Bearer <token>` as the spec words
it: the literal `Bearer `, then a non-empty token.  This follows the
spec's words (not the code) and is compared against the code's actual
prefix test. -/
def specBearerForm (h : String) : Prop := ∃ t, t ≠ "" ∧ h = "Bearer " ++ t

/-- A neutral payload for concrete test tokens: valid issuer and audience,
expiry at time 2000, no scopes and no role map. -/
def sampleClaims : Claims :=
  { iss := some keycloakIssuer, aud := [AUTH0_AUDIENCE], exp := 2000,
    nbf := none, scope := none, preferred_username := none,
    resource_access := none }

/-! ## Helper lemmas -/

/-- The empty-token header `"Bearer "` does not have the `Bearer <token>`
form: the token part would have to be empty. -/
theorem not_bearerForm_space : ¬ specBearerForm "Bearer " := by
  rintro ⟨t, ht, heq⟩
  apply ht
  have hl := congrArg String.length heq
  rw [String.length_append] at hl
  have h0 : t.length = 0 := by omega
  have hdata : t.data = [] := List.length_eq_zero.mp h0
  apply String.ext
  rw [hdata]

/-- The JavaScript `some`/`includes` test is exactly non-emptiness of the
list intersection. -/
theorem anyContains_iff_inter (l₁ l₂ : List String) :
    l₁.any (fun a => l₂.contains a) = true ↔ l₁.inter l₂ ≠ [] := by
  rw [List.any_eq_true]
  constructor
  · rintro ⟨a, ha, hc⟩
    intro h
    have : a ∈ l₁.inter l₂ := List.mem_inter_iff.mpr ⟨ha, List.elem_iff.mp hc⟩
    rw [h] at this
    exact absurd this (List.not_mem_nil a)
  · intro h
    obtain ⟨a, ha⟩ := List.exists_mem_of_ne_nil _ h
    have := List.mem_inter_iff.mp ha
    exact ⟨a, this.1, List.elem_iff.mpr this.2⟩

/-- Closed form of `requiereRol`: admit exactly when some required role is
among `todosLosRoles`, deny with both lists otherwise. -/
theorem requiereRol_eq (rolesRequeridos : List String) (user : Claims) :
    requiereRol rolesRequeridos user =
      if rolesRequeridos.any (fun rol => (todosLosRoles user).contains rol) then
        .next user
      else
        .deny 403 "Permisos insuficientes" rolesRequeridos (todosLosRoles user) := by
  unfold requiereRol todosLosRoles
  cases h : rolesRequeridos.any (fun rol =>
      (nsRoles (user.resource_access.getD []) "microserviciocliente" ++
        nsRoles (user.resource_access.getD []) "frontendapp").contains rol) <;>
    simp only [h, Bool.not_true, Bool.not_false, if_true, if_false,
      Bool.false_eq_true, Bool.true_eq_false, ite_true, ite_false]

/-- `requiereRol` admits exactly when the requirement intersects the union
of the two namespaces' roles. -/
theorem requiereRol_allowed_iff (rolesRequeridos : List String) (user : Claims) :
    (requiereRol rolesRequeridos user).allowed = true ↔
      rolesRequeridos.inter (todosLosRoles user) ≠ [] := by
  rw [← anyContains_iff_inter, requiereRol_eq]
  cases h : rolesRequeridos.any (fun rol => (todosLosRoles user).contains rol) <;>
    simp [h, RoleOut.allowed]

/-- Inversion of a successful `jwtVerify`: every enabled check passed, the
token decoded, and the signing key was fetched. -/
theorem jwtVerify_ok (opts : VerifyOpts) (decode : String → TokenString) (now : Int)
    (tok : String) (c : Claims) (kf : Bool)
    (h : jwtVerify opts decode now tok = (.ok c, kf)) :
    tok ≠ "" ∧ ∃ t, decode tok = .wellFormed t ∧
      opts.algorithms.contains t.alg = true ∧ t.sigValid = true ∧
      nbfViolated t.payload now = false ∧ now < t.payload.exp ∧
      audViolated opts t.payload = false ∧ issViolated opts t.payload = false ∧
      c = t.payload ∧ kf = true := by
  unfold jwtVerify at h
  split at h
  · simp at h
  · rename_i hne
    split at h
    · simp at h
    · rename_i t ht
      refine ⟨hne, t, ht, ?_⟩
      split at h
      · simp at h
      · split at h
        · simp at h
        · split at h
          · simp at h
          · split at h
            · simp at h
            · split at h
              · simp at h
              · split at h
                · simp at h
                · simp_all

/-- Inversion of a successful `authVerify`: algorithm, signature, issuer,
audience, expiry and `nbf` all checked out. -/
theorem authVerify_ok (now : Int) (t : Jwt) (c : Claims) (kf : Bool)
    (h : authVerify now t = (.ok c, kf)) :
    t.alg = "RS256" ∧ t.sigValid = true ∧ t.payload.iss = some auth0Issuer ∧
      t.payload.aud.contains AUTH0_AUDIENCE = true ∧ now < t.payload.exp ∧
      nbfViolated t.payload now = false ∧ c = t.payload ∧ kf = true := by
  unfold authVerify at h
  split at h
  · simp at h
  · split at h
    · simp at h
    · split at h
      · simp at h
      · split at h
        · simp at h
        · split at h
          · simp at h
          · split at h
            · simp at h
            · simp_all

/-- Inversion of an attaching `verificarToken`: the header passed the
prefix guard and the extracted token verified successfully. -/
theorem verificarToken_next (decode : String → TokenString) (now : Int)
    (s : String) (c : Claims) (kf : Bool)
    (h : verificarToken decode now (some s) = (.next c, kf)) :
    jsStartsWith s "Bearer " = true ∧
      jwtVerify apiVerifyOpts decode now ((jsSplit s ' ').getD 1 "") = (.ok c, kf) := by
  simp only [verificarToken] at h
  split at h
  · simp at h
  · rename_i hs
    refine ⟨by simpa using hs, ?_⟩
    split at h
    · simp at h
    · rename_i d kf2 heq
      cases h
      exact heq

/-- A failing `jwt.verify` behind a well-formed `Bearer` header yields the
403 invalid-token response of Api.js lines 50-55. -/
theorem verificarToken_err (decode : String → TokenString) (now : Int)
    (s : String) (msg : String) (kf : Bool)
    (hs : jsStartsWith s "Bearer " = true)
    (h : jwtVerify apiVerifyOpts decode now ((jsSplit s ' ').getD 1 "") = (.err msg, kf)) :
    verificarToken decode now (some s) = (.respond 403 "Token inválido o expirado", kf) := by
  simp only [verificarToken, hs, Bool.not_true, Bool.false_eq_true, if_false, h]

/-! ## Claim C1 -/

/-- Payload of a token that carries an empty audience list but is otherwise
valid for the Keycloak variant. -/
def c1Payload : Claims :=
  { iss := some keycloakIssuer, aud := [], exp := 2000, nbf := none,
    scope := none, preferred_username := none, resource_access := none }

/-- A decoding environment in which the bearer string `"tok"` is a
well-signed RS256 token with payload `c1Payload`. -/
def c1Env : String → TokenString :=
  fun s => if s = "tok" then .wellFormed ⟨"RS256", "k1", true, c1Payload⟩ else .malformed

/-- C1, counterexample: in the Keycloak variant a token whose audience list
is empty — so it does not contain any configured audience — still gets its
decoded Claims attached to `req.user`, because the `jwt.verify` call of
Api.js lines 46-49 configures no `audience` option. -/
theorem c1_counterexample :
    verificarToken c1Env 1000 (some "Bearer tok") = (.next c1Payload, true) ∧
      c1Payload.aud = [] := by
  decide

/-- C1, amended: decoded Claims are attached to the request context only
after the signature and the enabled standard validations succeed.  In the
Keycloak variant (`req.user`) these are: RS256 algorithm, signature,
issuer and expiry — audience is not validated.  In the Auth0 variant
(`req.auth`) they additionally include that the audience contains the
configured audience. -/
theorem c1_claims_attached_only_after_validation :
    (∀ (decode : String → TokenString) (now : Int) (s : String) (c : Claims) (kf : Bool),
        verificarToken decode now (some s) = (.next c, kf) →
        jsStartsWith s "Bearer " = true ∧
          ∃ t : Jwt, decode ((jsSplit s ' ').getD 1 "") = .wellFormed t ∧
            t.sigValid = true ∧ t.alg = "RS256" ∧ t.payload = c ∧
            c.iss = some keycloakIssuer ∧ now < c.exp ∧ nbfViolated c now = false) ∧
    (∀ (now : Int) (t : Jwt) (c : Claims) (kf : Bool),
        authVerify now t = (.ok c, kf) →
        t.sigValid = true ∧ t.alg = "RS256" ∧ t.payload = c ∧
          c.iss = some auth0Issuer ∧ c.aud.contains AUTH0_AUDIENCE = true ∧
          now < c.exp) := by
  constructor
  · intro decode now s c kf h
    obtain ⟨hs, hok⟩ := verificarToken_next decode now s c kf h
    obtain ⟨hne, t, ht, hcont, hsig, hnbf, hexp, haud, hiss, hc, hkf⟩ :=
      jwtVerify_ok apiVerifyOpts decode now ((jsSplit s ' ').getD 1 "") c kf hok
    subst hc
    have halg : t.alg = "RS256" := by
      have := List.elem_iff.mp hcont
      simpa [apiVerifyOpts] using this
    have hiss2 : t.payload.iss = some keycloakIssuer := by
      simpa [issViolated, apiVerifyOpts] using hiss
    exact ⟨hs, t, ht, hsig, halg, rfl, hiss2, hexp, hnbf⟩
  · intro now t c kf h
    obtain ⟨halg, hsig, hiss, haud, hexp, hnbf, hc, hkf⟩ :=
      authVerify_ok now t c kf h
    subst hc
    exact ⟨hsig, halg, rfl, hiss, haud, hexp⟩

/-- Payload matching every validation of the Keycloak variant. -/
def c1GoodEnv : String → TokenString :=
  fun s => if s = "good" then .wellFormed ⟨"RS256", "k2", true, sampleClaims⟩ else .malformed

/-- C1, witness: the amended theorem applied to a concrete attaching run of
the Keycloak middleware. -/
theorem c1_witness :
    jsStartsWith "Bearer good" "Bearer " = true ∧
      ∃ t : Jwt, c1GoodEnv ((jsSplit "Bearer good" ' ').getD 1 "") = .wellFormed t ∧
        t.sigValid = true ∧ t.alg = "RS256" ∧ t.payload = sampleClaims ∧
        sampleClaims.iss = some keycloakIssuer ∧ (1000 : Int) < sampleClaims.exp ∧
        nbfViolated sampleClaims 1000 = false :=
  c1_claims_attached_only_after_validation.1 c1GoodEnv 1000 "Bearer good"
    sampleClaims true (by decide)

/-! ## Claim C2 -/

/-- A decoding environment in which the bearer string `"exptok"` is a
well-signed token that expired at time 1000. -/
def c2Env : String → TokenString :=
  fun s => if s = "exptok" then
      .wellFormed ⟨"RS256", "k1", true, { sampleClaims with exp := 1000 }⟩
    else .malformed

/-- C2, counterexample: in the Keycloak variant an expired token — a failed
verification — is answered with HTTP 403, not 401 (Api.js lines 50-55). -/
theorem c2_counterexample :
    verificarToken c2Env 1500 (some "Bearer exptok")
      = (.respond 403 "Token inválido o expirado", true) := by
  decide

/-- C2, amended: when a bearer token fails verification, the Auth0 variant's
error middleware answers 401 (for any `UnauthorizedError`), but the
Keycloak variant's `verificarToken` answers 403 with the invalid-token
body; only its missing-header branch uses 401. -/
theorem c2_failed_verification_status :
    (∀ e : JsError, e.name = "UnauthorizedError" → (errorMiddleware e).status = 401) ∧
    (∀ (decode : String → TokenString) (now : Int) (s msg : String) (kf : Bool),
        jsStartsWith s "Bearer " = true →
        jwtVerify apiVerifyOpts decode now ((jsSplit s ' ').getD 1 "") = (.err msg, kf) →
        verificarToken decode now (some s)
          = (.respond 403 "Token inválido o expirado", kf)) := by
  constructor
  · intro e he
    simp [errorMiddleware, he]
  · intro decode now s msg kf hs h
    exact verificarToken_err decode now s msg kf hs h

/-- C2, witness: the amended theorem applied to a concrete unauthorized
error and to a concrete expired-token run of the Keycloak middleware. -/
theorem c2_witness :
    (errorMiddleware { name := "UnauthorizedError", message := "jwt expired" }).status = 401 ∧
      verificarToken c2Env 1500 (some "Bearer exptok")
        = (.respond 403 "Token inválido o expirado", true) :=
  ⟨c2_failed_verification_status.1 _ rfl,
   c2_failed_verification_status.2 c2Env 1500 "Bearer exptok" "jwt expired" true
     (by decide) (by decide)⟩

/-! ## Claim C3 -/

/-- C3, confirmed: the Scope strategy admits exactly when the requirement
intersects the set obtained by splitting the space-delimited scope claim —
at-least-one-of semantics. -/
theorem c3_scope_strategy_intersection (required : List String) (payload : Claims)
    (scope : String) (h : payload.scope = some scope) :
    (requiredScopes required payload).isNone = true ↔
      required.inter (jsSplit scope ' ') ≠ [] := by
  unfold requiredScopes
  rw [h, ← anyContains_iff_inter]
  simp only [Option.getD_some]
  cases hq : required.any (fun s => (jsSplit scope ' ').contains s) <;> simp [hq]

/-- C3, witness: the theorem at the spec's own example, requirement
`{"read"}` against scope claim `"read write"`. -/
theorem c3_witness :
    (requiredScopes ["read"] { sampleClaims with scope := some "read write" }).isNone = true ↔
      ["read"].inter (jsSplit "read write" ' ') ≠ [] :=
  c3_scope_strategy_intersection ["read"] { sampleClaims with scope := some "read write" }
    "read write" rfl

/-! ## Claim C4 -/

/-- Claims granting role `write` under namespace `microserviciocliente` and
role `read` under namespace `frontendapp`. -/
def userAB : Claims :=
  { sampleClaims with
    resource_access :=
      some [("microserviciocliente", ⟨some ["write"]⟩), ("frontendapp", ⟨some ["read"]⟩)] }

/-- C4, confirmed: the Role strategy admits exactly when the requirement
intersects the union (concatenation) of the roles of the two resource
namespaces; in particular, with namespace A granting `write` and namespace
B granting `read`, the requirement `{"read"}` admits. -/
theorem c4_role_union_intersection :
    (∀ (rolesRequeridos : List String) (user : Claims),
        (requiereRol rolesRequeridos user).allowed = true ↔
          rolesRequeridos.inter (todosLosRoles user) ≠ []) ∧
    requiereRol ["read"] userAB = .next userAB := by
  constructor
  · exact requiereRol_allowed_iff
  · decide

/-! ## Claim C5 -/

/-- A well-signed token that declares the HMAC algorithm HS256. -/
def hs256Jwt : Jwt := ⟨"HS256", "k1", true, sampleClaims⟩

/-- C5, confirmed: a token whose header declares an algorithm other than
RS256 is rejected by both variants, with no signing-key fetch (second
component `false`); the accept branch is unreachable since the result is
an error. -/
theorem c5_algorithm_rejected_before_key_fetch :
    (∀ (decode : String → TokenString) (now : Int) (tok : String) (t : Jwt),
        tok ≠ "" → decode tok = .wellFormed t → t.alg ≠ "RS256" →
        jwtVerify apiVerifyOpts decode now tok = (.err "invalid algorithm", false)) ∧
    (∀ (now : Int) (t : Jwt), t.alg ≠ "RS256" →
        authVerify now t = (.err "signing algorithm not allowed", false)) := by
  constructor
  · intro decode now tok t htok hdec halg
    have hcont : apiVerifyOpts.algorithms.contains t.alg = false := by
      simp [apiVerifyOpts, halg]
    simp only [jwtVerify, if_neg htok, hdec, hcont, Bool.not_false, if_true]
  · intro now t halg
    simp [authVerify, halg]

/-- C5, witness: a concrete HS256 token is rejected without a key fetch in
both variants ("none" and HMAC variants never reach the accept branch). -/
theorem c5_witness :
    jwtVerify apiVerifyOpts (fun _ => .wellFormed hs256Jwt) 1000 "t"
        = (.err "invalid algorithm", false) ∧
      authVerify 1000 hs256Jwt = (.err "signing algorithm not allowed", false) :=
  ⟨c5_algorithm_rejected_before_key_fetch.1 (fun _ => .wellFormed hs256Jwt) 1000 "t"
      hs256Jwt (by decide) rfl (by decide),
   c5_algorithm_rejected_before_key_fetch.2 1000 hs256Jwt (by decide)⟩

/-! ## Claim C6 -/

/-- C6, counterexample: the header `"Bearer "` does not have the form
`Bearer <token>` (its token part is empty), yet the middleware does not
answer 401 with the missing-token error: the empty extracted token fails
verification and gets the 403 invalid-token response instead. -/
theorem c6_counterexample :
    ¬ specBearerForm "Bearer " ∧
      verificarToken (fun _ => .malformed) 0 (some "Bearer ")
        = (.respond 403 "Token inválido o expirado", false) :=
  ⟨not_bearerForm_space, by decide⟩

/-- C6, amended: when the Authorization header is absent or does not start
with `'Bearer '`, the middleware answers 401 with the missing-token error,
fetches no key and never calls the route handler, and that error is
distinct from the invalid-token error; a header that passes the prefix
guard with an empty token (such as `"Bearer "`) is instead rejected as an
invalid token with 403. -/
theorem c6_missing_or_malformed_header :
    ∀ (decode : String → TokenString) (now : Int) (h : Option String),
      (∀ s, h = some s → jsStartsWith s "Bearer " = false) →
      verificarToken decode now h = (.respond 401 "Token no proporcionado", false) ∧
        "Token no proporcionado" ≠ "Token inválido o expirado" := by
  intro decode now h hf
  refine ⟨?_, by decide⟩
  match h with
  | none => rfl
  | some s =>
    have hs := hf s rfl
    simp [verificarToken, hs]

/-- C6, witness: the amended theorem at a header with a lowercase scheme,
which fails the prefix guard. -/
theorem c6_witness :
    verificarToken (fun _ => .malformed) 0 (some "bearer x")
        = (.respond 401 "Token no proporcionado", false) ∧
      "Token no proporcionado" ≠ "Token inválido o expirado" :=
  c6_missing_or_malformed_header (fun _ => .malformed) 0 (some "bearer x")
    (by intro s hs; cases hs; decide)

/-! ## Claim C7 -/

/-- C7, confirmed: a request that passes token verification but is denied by
the authorization predicate gets HTTP 403 carrying both the full required
set and the full actual set.  In the Keycloak variant `requiereRol` denies
with `rolesRequeridos` and the whole `todosLosRoles` list; in the Auth0
variant the error middleware answers the raised `InsufficientScopeError`
with 403 and passes through `err.expected` (the whole requirement) and
`err.actual` (the whole split scope list). -/
theorem c7_deny_carries_both_sets :
    (∀ (rolesRequeridos : List String) (user : Claims),
        (requiereRol rolesRequeridos user).allowed = false →
        requiereRol rolesRequeridos user =
          .deny 403 "Permisos insuficientes" rolesRequeridos (todosLosRoles user)) ∧
    (∀ (required : List String) (payload : Claims) (e : JsError),
        requiredScopes required payload = some e →
        errorMiddleware e =
          { status := 403, error := "Permisos insuficientes",
            mensaje := some "El token no tiene los scopes necesarios",
            scopes_requeridos := some required,
            scopes_actuales := some (jsSplit (payload.scope.getD "") ' ') }) := by
  constructor
  · intro req user h
    rw [requiereRol_eq] at h ⊢
    cases hq : req.any (fun rol => (todosLosRoles user).contains rol) <;>
      simp_all [RoleOut.allowed]
  · intro required payload e h
    simp only [requiredScopes] at h
    split at h
    · simp at h
    · rename_i hq
      have he := Option.some.inj h
      subst he
      simp [errorMiddleware]

/-- The payload of a user token whose scope claim is `"read write"`. -/
def c7Payload : Claims := { sampleClaims with scope := some "read write" }

/-- C7, witness: the theorem applied to a role-less user denied by
`requiereRol`, and to the concrete insufficient-scope error raised for
requirement `{"admin"}` against scope `"read write"`. -/
theorem c7_witness :
    requiereRol ["service-read"] sampleClaims
        = .deny 403 "Permisos insuficientes" ["service-read"] (todosLosRoles sampleClaims) ∧
      errorMiddleware
          { name := "InsufficientScopeError", message := "Insufficient Scope",
            code := some "insufficient_scope", expected := some ["admin"],
            actual := some ["read", "write"] }
        = { status := 403, error := "Permisos insuficientes",
            mensaje := some "El token no tiene los scopes necesarios",
            scopes_requeridos := some ["admin"],
            scopes_actuales := some (jsSplit (c7Payload.scope.getD "") ' ') } :=
  ⟨c7_deny_carries_both_sets.1 ["service-read"] sampleClaims (by decide),
   c7_deny_carries_both_sets.2 ["admin"] c7Payload
     { name := "InsufficientScopeError", message := "Insufficient Scope",
       code := some "insufficient_scope", expected := some ["admin"],
       actual := some ["read", "write"] } (by decide)⟩

/-! ## Claim C8 -/

/-- C8, confirmed: a request whose method/path pair matches no registered
route of the Auth0 app is answered with HTTP 404 and a structured JSON
body echoing the requested path and the request method. -/
theorem c8_unknown_route_404 (m p : String) (hm : matchedRoute m p = false) :
    appDispatch m p = some { status := 404, error := "Endpoint no encontrado",
                             ruta_solicitada := p, metodo := m } := by
  simp [appDispatch, hm]

/-- C8, witness: the theorem at the undefined combination
`DELETE /api/unknown`. -/
theorem c8_witness :
    appDispatch "DELETE" "/api/unknown"
      = some { status := 404, error := "Endpoint no encontrado",
               ruta_solicitada := "/api/unknown", metodo := "DELETE" } :=
  c8_unknown_route_404 "DELETE" "/api/unknown" (by decide)

/-! ## Claim C9 -/

/-- C9, confirmed: the role predicate is deterministic and mutation-free.
Two invocations on claim sets with the same `resource_access` (all other
fields may differ) produce the same admit/deny decision and the same deny
response, and on admit the claims passed to the handler are exactly the
input claims. -/
theorem c9_authorization_predicate_pure :
    ∀ (rolesRequeridos : List String) (c₁ c₂ : Claims),
      c₁.resource_access = c₂.resource_access →
      (requiereRol rolesRequeridos c₁).allowed = (requiereRol rolesRequeridos c₂).allowed ∧
        (∀ s e rr ra, requiereRol rolesRequeridos c₁ = .deny s e rr ra ↔
            requiereRol rolesRequeridos c₂ = .deny s e rr ra) ∧
        (∀ u, requiereRol rolesRequeridos c₁ = .next u → u = c₁) := by
  intro req c₁ c₂ hra
  have hroles : todosLosRoles c₁ = todosLosRoles c₂ := by
    unfold todosLosRoles
    rw [hra]
  simp only [requiereRol_eq, hroles]
  cases hq : req.any (fun rol => (todosLosRoles c₂).contains rol)
  · simp [hq, RoleOut.allowed]
  · refine ⟨by simp [hq, RoleOut.allowed], by simp [hq], ?_⟩
    intro u hu
    simp [hq] at hu
    exact hu.symm

/-- Claims with the scope claim `"read"` and no role map. -/
def c9ClaimsA : Claims := { sampleClaims with scope := some "read" }

/-- Claims agreeing with `c9ClaimsA` on `resource_access` but differing in
every identity field that the predicate must ignore. -/
def c9ClaimsB : Claims :=
  { sampleClaims with scope := some "write", preferred_username := some "oscar" }

/-- C9, witness: the theorem applied to two claim sets that differ outside
`resource_access`. -/
theorem c9_witness :
    (requiereRol ["user-read"] c9ClaimsA).allowed
      = (requiereRol ["user-read"] c9ClaimsB).allowed :=
  (c9_authorization_predicate_pure ["user-read"] c9ClaimsA c9ClaimsB rfl).1

/-! ## Claim C10 -/

/-- C10, confirmed: the role predicate consults exactly the namespaces
`microserviciocliente` and `frontendapp` — it can only admit through a
role granted under one of them — and when the role map lacks both entries
(in particular when `resource_access` is absent) it totally denies with
403 and an empty actual-roles list. -/
theorem c10_fixed_namespaces_total :
    (∀ (rolesRequeridos : List String) (user : Claims),
        (requiereRol rolesRequeridos user).allowed = true →
        ∃ r ∈ rolesRequeridos,
          r ∈ nsRoles (user.resource_access.getD []) "microserviciocliente" ∨
            r ∈ nsRoles (user.resource_access.getD []) "frontendapp") ∧
    (∀ (rolesRequeridos : List String) (user : Claims),
        (user.resource_access.getD []).lookup "microserviciocliente" = none →
        (user.resource_access.getD []).lookup "frontendapp" = none →
        requiereRol rolesRequeridos user =
          .deny 403 "Permisos insuficientes" rolesRequeridos []) := by
  constructor
  · intro req user h
    have hint := (requiereRol_allowed_iff req user).mp h
    obtain ⟨a, ha⟩ := List.exists_mem_of_ne_nil _ hint
    have hmem := List.mem_inter_iff.mp ha
    refine ⟨a, hmem.1, ?_⟩
    have := hmem.2
    unfold todosLosRoles at this
    exact List.mem_append.mp this
  · intro req user h1 h2
    have hroles : todosLosRoles user = [] := by
      unfold todosLosRoles nsRoles
      rw [h1, h2]
      rfl
    rw [requiereRol_eq, hroles]
    have hq : req.any (fun rol => ([] : List String).contains rol) = false := by
      simp
    rw [hq]
    rfl

/-- Claims granting `read` only under a namespace the predicate never
consults. -/
def cOther : Claims :=
  { sampleClaims with resource_access := some [("otherns", ⟨some ["read"]⟩)] }

/-- C10, witness: roles under an unconsulted namespace do not admit; the
request is denied with 403 and an empty actual-roles list. -/
theorem c10_witness :
    requiereRol ["read"] cOther = .deny 403 "Permisos insuficientes" ["read"] [] :=
  c10_fixed_namespaces_total.2 ["read"] cOther (by decide) (by decide)

end Parcial2
